import Mathlib

/-!
Verification of the JOTHI school-bell WhatsApp front-end.

The definitions below are a shallow embedding of the two Python modules
`whatsapp_integration.py` (session store, command dispatcher, session
continuation, webhook verification) and `whatsapp_server.py` (the simpler
command handler and its webhook verification).  Python strings become Lean
`String`, Python dicts become association lists over `String`, `time.time()`
becomes an explicit `Nat` clock parameter, and every network / audio side
effect becomes an explicit `Effect` value in the returned effect list.
External collaborator outcomes (media-URL resolution, media download) are
supplied through a `MediaEnv` parameter.
-/

namespace JOTHI

/-- Python whitespace characters, as used by `str.split` and `str.strip`:
space, tab, newline, carriage return, vertical tab, form feed. -/
def pyIsSpace (c : Char) : Bool :=
  c == ' ' || c == '\t' || c == '\n' || c == '\r' || c == Char.ofNat 11 || c == Char.ofNat 12

/-- Python `s.strip()`. -/
def pyStrip (s : String) : String :=
  String.mk (((s.data.dropWhile pyIsSpace).reverse.dropWhile pyIsSpace).reverse)

/-- Python `s.lower()` (ASCII range, which is all the dispatcher compares). -/
def pyLower (s : String) : String :=
  String.mk (s.data.map Char.toLower)

/-- Python `s.startswith(p)`. -/
def pyStartsWith (s p : String) : Bool :=
  p.data.isPrefixOf s.data

/-- Fuel-driven worker for Python `str.split` on whitespace with an optional
maxsplit: leading runs of whitespace are consumed, and once maxsplit tokens
have been produced the remainder (with its leading whitespace stripped) is
returned whole. -/
def pySplitAux : Nat → List Char → Option Nat → List String
  | 0, _, _ => []
  | fuel + 1, cs, maxs =>
    let cs2 := cs.dropWhile pyIsSpace
    if cs2.isEmpty then []
    else
      match maxs with
      | some 0 => [String.mk cs2]
      | some (m + 1) =>
        String.mk (cs2.takeWhile (fun c => !(pyIsSpace c)))
          :: pySplitAux fuel (cs2.dropWhile (fun c => !(pyIsSpace c))) (some m)
      | none =>
        String.mk (cs2.takeWhile (fun c => !(pyIsSpace c)))
          :: pySplitAux fuel (cs2.dropWhile (fun c => !(pyIsSpace c))) none

/-- Python `s.split()` / `s.split(maxsplit=n)`. -/
def pySplit (s : String) (maxs : Option Nat) : List String :=
  pySplitAux (s.data.length + 1) s.data maxs

/-- Fuel-driven worker for Python `s.split(sep)` with a one-character
separator: no collapsing, empty pieces kept. -/
def pySplitSepAux : Nat → List Char → Char → List String
  | 0, _, _ => []
  | fuel + 1, cs, sep =>
    match cs.dropWhile (fun c => !(c == sep)) with
    | [] => [String.mk cs]
    | _ :: rest =>
      String.mk (cs.takeWhile (fun c => !(c == sep))) :: pySplitSepAux fuel rest sep

/-- Python `s.split(sep)` for a one-character separator. -/
def pySplitSep (s : String) (sep : Char) : List String :=
  pySplitSepAux (s.data.length + 1) s.data sep

/-- Python `s.split(sep, 1)` (only used by the source after checking that the
separator occurs, so the no-separator fallback is never reached there). -/
def pySplitOnce (s : String) (sep : Char) : String × String :=
  match s.data.dropWhile (fun c => !(c == sep)) with
  | [] => (s, "")
  | _ :: rest => (String.mk (s.data.takeWhile (fun c => !(c == sep))), String.mk rest)

/-- Python `c in s` for a one-character needle. -/
def pyContainsChar (s : String) (c : Char) : Bool :=
  s.data.contains c

/-- Python truthiness of an optional string: `None` and the empty string are
falsy, everything else truthy. -/
def pyFalsy : Option String → Bool
  | none => true
  | some s => s.isEmpty

/-- Python `d.get(k)` over the association-list model of a dict. -/
def dictGet {α : Type} (d : List (String × α)) (k : String) : Option α :=
  (d.find? (fun p => p.1 == k)).map (fun p => p.2)

/-- Python `del d[k]` (no-op when the key is absent, matching the guarded
delete in the source). -/
def dictDel {α : Type} (d : List (String × α)) (k : String) : List (String × α) :=
  d.filter (fun p => !(p.1 == k))

/-- Python `d[k] = v`: per-key read-back is exactly dict assignment. -/
def dictSet {α : Type} (d : List (String × α)) (k : String) (v : α) : List (String × α) :=
  (k, v) :: dictDel d k

/-- One entry of the `SESSIONS` dict of `whatsapp_integration.py`:
`{"expect": state, "data": data, "ts": time.time()}`. -/
structure SessionRec where
  expect : String
  data : List (String × String)
  ts : Nat
deriving DecidableEq

/-- The module-level `SESSIONS` dict, sender → session record. -/
def Sessions := List (String × SessionRec)
deriving instance DecidableEq for Sessions

/-- `set_session(sender, state, data)` at clock value `now`. -/
def set_session (sessions : Sessions) (sender state : String)
    (data : List (String × String)) (now : Nat) : Sessions :=
  dictSet sessions sender ⟨state, data, now⟩

/-- `clear_session(sender)`. -/
def clear_session (sessions : Sessions) (sender : String) : Sessions :=
  dictDel sessions sender

/-- `get_session(sender)` at clock value `now`: returns the live session, or
`none` — evicting the stored entry — when `now - ts > 300`.  The second
component is the store after the read. -/
def get_session (sessions : Sessions) (now : Nat) (sender : String) :
    Option SessionRec × Sessions :=
  match dictGet sessions sender with
  | none => (none, sessions)
  | some s =>
    if now - s.ts > 300 then (none, clear_session sessions sender)
    else (some s, sessions)

/-- An inbound webhook message, with the fields the dispatcher reads:
`msg.get("from")`, `msg.get("type")`, `msg.get("text", {}).get("body")`,
`msg.get("audio", {}).get("id")`. -/
structure Msg where
  msgFrom : Option String
  type : Option String
  textBody : Option String
  audioId : Option String
deriving DecidableEq

/-- A plain text message from `fromN`. -/
def textMsg (fromN body : String) : Msg :=
  ⟨some fromN, some "text", some body, none⟩

/-- An audio (voice-note) message from `fromN` with media id `mid`. -/
def audioMsg (fromN mid : String) : Msg :=
  ⟨some fromN, some "audio", none, some mid⟩

/-- A side-effecting action handed to a background thread. -/
inductive ActionKind where
  | ttsOnline (text voice outfile : String)
  | speakOffline (text : String)
  | playAudio (path : String)
  | ringBell (times : List String)
  | ringAssemblyBell (secs : Nat)
  | playPrayerThenBirthday (prayer birthday : String)
deriving DecidableEq

/-- An observable effect of processing one message: an outbound reply
(`send_whatsapp_text`), a background action thread, or a persisted-state
write.  Session-store changes are carried in the returned `Sessions`. -/
inductive Effect where
  | reply (body : String)
  | action (a : ActionKind)
  | saveWaConfig (phoneId token : String)
  | saveOpenaiKey (key : String)
  | updateSchedule (name : String) (times : List String)
  | deleteSchedule (name : String)
  | renameSchedule (oldName newName : String)
deriving DecidableEq

/-- The module-level environment the dispatcher reads: `AUTH_USERS`,
`BELL_SCHEDULES` and the audio-file constants (values as in the local stubs
of `whatsapp_integration.py`). -/
structure Env where
  authUsers : List (String × String)
  schedules : List (String × List String)
  aboutText : String
  anthemFile : String
  extra1File : Option String
  extra2File : Option String
  prayerFile : String
  birthdayFile : String
deriving DecidableEq

/-- `get_role(number)`: `AUTH_USERS.get(number, "teacher")`. -/
def get_role (env : Env) (number : String) : String :=
  (dictGet env.authUsers number).getD "teacher"

/-- `get_schedule(name)`: `BELL_SCHEDULES.get(name, [])`. -/
def get_schedule (env : Env) (name : String) : List String :=
  (dictGet env.schedules name).getD []

/-- `list_schedule_names()`. -/
def list_schedule_names (env : Env) : List String :=
  env.schedules.map (fun p => p.1)

/-- Outcomes of the external media collaborators: `get_media_url(media_id)`
returning `(url, mime_type)` and `download_media_file(url, media_id, mime)`
returning a local path or `None`. -/
structure MediaEnv where
  mediaUrlOf : Option String → Option String × Option String
  downloadOf : String → Option String → Option String → Option String

/-- `normalize_number(n)`: `None` and `""` pass through, a leading `+` is
kept, otherwise one is prepended. -/
def normalize_number (n : Option String) : Option String :=
  match n with
  | none => none
  | some s =>
    if s.isEmpty then some s
    else if pyStartsWith s "+" then some s
    else some ("+" ++ s)

/-- `handle_session_message(sender, session, msg)`: the session-continuation
handler, returning the effect list and the session store after the call. -/
def handle_session_message (menv : MediaEnv) (sessions : Sessions)
    (sender : String) (sess : SessionRec) (msg : Msg) : List Effect × Sessions :=
  if sess.expect == "announce_model" then
    if msg.type ≠ some "text" then
      ([.reply "Please send model number 1/2/3/4 as text."], sessions)
    else
      let choice := pyStrip ((msg.textBody).getD "")
      if !(choice == "1" || choice == "2" || choice == "3" || choice == "4") then
        ([.reply "Invalid choice. Send 1,2,3 or 4."], sessions)
      else
        let model :=
          if choice == "1" then "alloy"
          else if choice == "2" then "nova"
          else if choice == "3" then "onyx"
          else "offline"
        let announce_text := (dictGet sess.data "announce_text").getD ""
        let act :=
          if model == "offline" then ActionKind.speakOffline announce_text
          else ActionKind.ttsOnline announce_text model ("announce_" ++ model ++ ".mp3")
        ([.action act, .reply ("Announcement played using model " ++ choice)],
         clear_session sessions sender)
  else if sess.expect == "announce_wait_voice" then
    if msg.type ≠ some "audio" then
      ([.reply "Please send a voice note (audio message)."], sessions)
    else
      let mediaId := msg.audioId
      let um := menv.mediaUrlOf mediaId
      if pyFalsy um.1 then
        ([.reply "Failed to get media URL."], clear_session sessions sender)
      else
        let path := menv.downloadOf ((um.1).getD "") mediaId um.2
        if pyFalsy path then
          ([.reply "Failed to download voice."], clear_session sessions sender)
        else
          ([.action (.playAudio (path.getD "")),
            .reply "Voice announcement received and played."],
           clear_session sessions sender)
  else
    ([.reply "Session expired or unknown."], clear_session sessions sender)

/-- `handle_slash_command(sender, body)` of `whatsapp_integration.py`.  Note
that the source binds `lower = body.strip()` without calling `.lower()`, so
the comparisons below are case-sensitive exactly as the code is. -/
def handle_slash_command (env : Env) (sessions : Sessions) (now : Nat)
    (sender body : String) : List Effect × Sessions :=
  let lower := pyStrip body
  let role := get_role env sender
  if lower == "/help" && role == "teacher" then
    ([.reply "JOTHI Commands (Teacher):\n/bellmode - Bell options\n/assembly - Assembly playback\n/about - About us"], sessions)
  else if lower == "/help" && role == "admin" then
    ([.reply "JOTHI Commands (Admin):\n/announcement - Make announcement\n/about - About us"], sessions)
  else if lower == "/help" && role == "developer" then
    ([.reply "JOTHI Commands (Developer):\n/bellmode\n/assembly\n/announcement\n/settings\n/about"], sessions)
  else if pyStartsWith lower "/about" then
    ([.reply (env.aboutText.take 1500)], sessions)
  else if pyStartsWith lower "/bellmode" then
    if !(role == "teacher" || role == "developer") then
      ([.reply "Not allowed."], sessions)
    else
      let parts := pySplit lower (some 2)
      if parts.length == 1 then
        ([.reply "Bell commands:\n/bellmode today - set today's times\n/bellmode use <name> - use saved schedule"], sessions)
      else if parts.getD 1 "" == "today" then
        ([.reply "Send times for TODAY as comma separated HH:MM values. Example: 09:00,10:30,12:00"],
         set_session sessions sender "bell_today_input" [] now)
      else if parts.getD 1 "" == "use" && parts.length ≥ 3 then
        let name := pyStrip (parts.getD 2 "")
        let sched := get_schedule env name
        if sched.isEmpty then
          ([.reply ("Schedule '" ++ name ++ "' not found.")], sessions)
        else
          ([.action (.ringBell sched), .reply ("Started schedule '" ++ name ++ "'")], sessions)
      else
        ([.reply "Unknown bellmode command."], sessions)
  else if pyStartsWith lower "/assembly" then
    if !(role == "teacher" || role == "developer") then
      ([.reply "Not allowed."], sessions)
    else
      let parts := pySplit lower none
      if parts.length == 1 then
        ([.reply "Assembly commands: /assembly <n>\n1=Prayer,2=Birthday,3=Anthem,4=Extra1,5=Extra2,6=Bell(5s),11=Prayer+Birthday"], sessions)
      else
        let cmd := parts.getD 1 ""
        if cmd == "1" then
          ([.action (.playAudio env.prayerFile), .reply "Playing prayer."], sessions)
        else if cmd == "2" then
          ([.action (.playAudio env.birthdayFile), .reply "Playing birthday song."], sessions)
        else if cmd == "3" then
          ([.action (.playAudio env.anthemFile), .reply "Playing national anthem."], sessions)
        else if cmd == "4" then
          if !(pyFalsy env.extra1File) then
            ([.action (.playAudio ((env.extra1File).getD "")), .reply "Playing Extra 1."], sessions)
          else
            ([.reply "Extra 1 not set."], sessions)
        else if cmd == "5" then
          if !(pyFalsy env.extra2File) then
            ([.action (.playAudio ((env.extra2File).getD "")), .reply "Playing Extra 2."], sessions)
          else
            ([.reply "Extra 2 not set."], sessions)
        else if cmd == "6" then
          ([.action (.ringAssemblyBell 5), .reply "Rung assembly bell for 5 seconds."], sessions)
        else if cmd == "11" then
          ([.action (.playPrayerThenBirthday env.prayerFile env.birthdayFile),
            .reply "Played prayer + birthday."], sessions)
        else
          ([.reply "Unknown assembly option."], sessions)
  else if pyStartsWith lower "/announcement" || pyStartsWith lower "/announce" then
    if !(role == "admin" || role == "developer") then
      ([.reply "Not allowed."], sessions)
    else
      let parts := pySplit lower (some 2)
      if parts.length ≥ 2 && parts.getD 1 "" == "text" then
        let m := if parts.length ≥ 3 then parts.getD 2 "" else ""
        if m.isEmpty then
          ([.reply "Usage: /announce text <your message>"], sessions)
        else
          ([.reply "Choose voice model for announcement:\n1. Alloy (online)\n2. Nova (online)\n3. Onyx (online)\n4. Offline local\nSend 1/2/3/4 now."],
           set_session sessions sender "announce_model" [("announce_text", m)] now)
      else if parts.length ≥ 2 && parts.getD 1 "" == "voice" then
        ([.reply "Please send the voice note now (record & send voice message in WhatsApp)."],
         set_session sessions sender "announce_wait_voice" [] now)
      else
        ([.reply "Announcement usage:\n/announce text <message>\n/announce voice"], sessions)
  else if pyStartsWith lower "/settings" then
    if role ≠ "developer" then
      ([.reply "Not allowed."], sessions)
    else
      let parts := pySplit lower (some 2)
      if parts.length == 1 then
        ([.reply "Settings:\n/settings setwa <PHONE_ID>|<ACCESS_TOKEN>\n/settings setopenai <OPENAI_KEY>"], sessions)
      else
        let sub := parts.getD 1 ""
        if sub == "setwa" && parts.length ≥ 3 then
          if !(pyContainsChar (parts.getD 2 "") '|') then
            ([.reply "Use: /settings setwa PHONE_ID|ACCESS_TOKEN"], sessions)
          else
            let pt := pySplitOnce (parts.getD 2 "") '|'
            ([.saveWaConfig (pyStrip pt.1) (pyStrip pt.2), .reply "WhatsApp config saved."], sessions)
        else if sub == "setopenai" && parts.length ≥ 3 then
          ([.saveOpenaiKey (pyStrip (parts.getD 2 "")), .reply "OpenAI key saved & loaded."], sessions)
        else
          ([.reply "Unknown settings command."], sessions)
  else if pyStartsWith lower "/schedule" && role == "developer" then
    let parts := pySplit lower (some 2)
    let cmd := if parts.length ≥ 2 then parts.getD 1 "" else ""
    if cmd == "list" then
      let names := list_schedule_names env
      ([.reply ("Saved schedules: " ++ (if names.isEmpty then "(none)" else String.intercalate ", " names))], sessions)
    else if cmd == "create" && parts.length ≥ 3 then
      if !(pyContainsChar (parts.getD 2 "") '|') then
        ([.reply "Use: /schedule create NAME|HH:MM,HH:MM"], sessions)
      else
        let nt := pySplitOnce (parts.getD 2 "") '|'
        let times := ((pySplitSep nt.2 ',').map pyStrip).filter (fun t => !(t.isEmpty))
        ([.updateSchedule (pyStrip nt.1) times,
          .reply ("Schedule '" ++ pyStrip nt.1 ++ "' created.")], sessions)
    else if cmd == "delete" && parts.length ≥ 3 then
      let name := pyStrip (parts.getD 2 "")
      ([.deleteSchedule name, .reply ("Deleted schedule '" ++ name ++ "'.")], sessions)
    else if cmd == "rename" && parts.length ≥ 3 then
      if !(pyContainsChar (parts.getD 2 "") '|') then
        ([.reply "Use: /schedule rename OLD|NEW"], sessions)
      else
        let onn := pySplitOnce (parts.getD 2 "") '|'
        ([.renameSchedule (pyStrip onn.1) (pyStrip onn.2),
          .reply ("Renamed '" ++ pyStrip onn.1 ++ "' -> '" ++ pyStrip onn.2 ++ "'")], sessions)
    else
      ([.reply "Schedule commands for developer: list/create/rename/delete"], sessions)
  else
    ([.reply "Unknown command. Type /help"], sessions)

/-- `process_incoming_message(msg, val)`: normalize the sender, pre-empt with
any live session, else dispatch on the content type. -/
def process_incoming_message (env : Env) (menv : MediaEnv) (sessions : Sessions)
    (now : Nat) (msg : Msg) : List Effect × Sessions :=
  match normalize_number msg.msgFrom with
  | none => ([], sessions)
  | some sender =>
    if sender.isEmpty then ([], sessions)
    else
      match (get_session sessions now sender).1 with
      | some s =>
        handle_session_message menv (get_session sessions now sender).2 sender s msg
      | none =>
        if msg.type = some "text" then
          let body := pyStrip ((msg.textBody).getD "")
          if !(pyStartsWith body "/") then
            ([.reply "Welcome to JOTHI WhatsApp bot. Type /help to see commands."], sessions)
          else
            handle_slash_command env sessions now sender body
        else if msg.type = some "audio" then
          ([.reply "To use a voice note for announcement, please send /announce voice first."], sessions)
        else
          ([.reply "Message type not supported. Use /help"], sessions)

/-- The query arguments of a GET verification request: `hub.mode`,
`hub.verify_token`, `hub.challenge`. -/
structure QueryArgs where
  mode : Option String
  token : Option String
  challenge : Option String
deriving DecidableEq

/-- The GET `/webhook` handler `verify` of `whatsapp_integration.py`:
`(body, status)` where the body is the raw challenge on success. -/
def verify (verifyToken : String) (q : QueryArgs) : Option String × Nat :=
  if q.mode = some "subscribe" ∧ q.token = some verifyToken then (q.challenge, 200)
  else (some "Forbidden", 403)

/-- The GET `/webhook` handler `verify_webhook` of `whatsapp_server.py`
(same logic as `verify`). -/
def verify_webhook (verifyToken : String) (q : QueryArgs) : Option String × Nat :=
  if q.mode = some "subscribe" ∧ q.token = some verifyToken then (q.challenge, 200)
  else (some "Forbidden", 403)

/-- `handle_command(text, sender)` of `whatsapp_server.py`: this variant
lowercases before matching (`lower = text.lower().strip()`). -/
def handle_command (text sender : String) : String :=
  let lower := pyStrip (pyLower text)
  if lower == "/help" || lower == "help" then
    "JOTHI Bot commands:\n/help - show this message\n/announce <text> - announce (via offline voice)\n/schedule list - list saved schedules\n/about - about JOTHI"
  else if pyStartsWith lower "/announce " then
    "Announcement played."
  else if pyStartsWith lower "/schedule" then
    let cmd := pySplit lower none
    if cmd.length ≥ 2 && cmd.getD 1 "" == "list" then "Saved schedules: Regular Day"
    else "Unknown schedule command."
  else if lower == "/about" || lower == "about" then
    "JOTHI Bot - School Bell System"
  else
    "Unknown command. Type /help for commands."

/-- The announcement body extracted at `whatsapp_server.py` line 237:
`msg = text[len("/announce "):].strip()` — sliced from the original `text`,
not from `lower`, so its casing is preserved. -/
def announce_body (text : String) : String :=
  pyStrip (String.mk (text.data.drop 10))

/-- `ABOUT_US_TEXT` (local stub value in `whatsapp_integration.py`). -/
def ABOUT_US_TEXT : String :=
  "JOTHI - School Bell System\n\nThis project is built as a tribute and a practical school bell/announcement system."

/-- A concrete environment for instantiating the theorems: one identity per
role, and the stub schedule table extended with a schedule whose time list
is empty. -/
def testEnv : Env :=
  ⟨[("+5", "teacher"), ("+7", "admin"), ("+9", "developer")],
   [("Regular Day", ["08:30", "09:30"]), ("Ghost Day", [])], ABOUT_US_TEXT,
   "national_anthem.mp3", none, none, "english_prayer.mp3", "english_birthday.mp3"⟩

/-- Media collaborators where URL resolution fails (`get_media_url` returns
`(None, None)`). -/
def testMediaFailUrl : MediaEnv :=
  ⟨fun _ => (none, none), fun _ _ _ => none⟩

/-- Media collaborators where URL resolution succeeds but the download
fails. -/
def testMediaFailDownload : MediaEnv :=
  ⟨fun _ => (some "http://cdn/media", some "audio/ogg"), fun _ _ _ => none⟩

/-! Helper lemmas about the dict model and about `pyStartsWith`. -/

/-- Reading back a deleted key yields nothing. -/
theorem dictGet_dictDel_self {α : Type} (d : List (String × α)) (k : String) :
    dictGet (dictDel d k) k = none := by
  induction d with
  | nil => rfl
  | cons p d ih =>
    rcases hpk : (p.1 == k) with _ | _
    · simpa [dictDel, dictGet, List.filter, hpk] using ih
    · simpa [dictDel, dictGet, List.filter, hpk] using ih

/-- Reading back a freshly set key yields the stored value. -/
theorem dictGet_dictSet_self {α : Type} (d : List (String × α)) (k : String) (v : α) :
    dictGet (dictSet d k v) k = some v := by
  simp [dictGet, dictSet, List.find?]

/-- A string with prefix `p` differs from any string without that prefix. -/
theorem ne_of_pyStartsWith {s p t : String} (h : pyStartsWith s p = true)
    (ht : pyStartsWith t p = false) : s ≠ t := by
  intro he
  rw [he] at h
  rw [h] at ht
  exact Bool.noConfusion ht

/-- Two incomparable literals cannot both be prefixes of one string, so a
string with prefix `p` does not have prefix `q`. -/
theorem pyStartsWith_excl {s p q : String} (h : pyStartsWith s p = true)
    (h1 : List.isPrefixOf q.data p.data = false)
    (h2 : List.isPrefixOf p.data q.data = false) :
    pyStartsWith s q = false := by
  by_contra hq
  rw [Bool.not_eq_false] at hq
  unfold pyStartsWith at h hq
  rw [List.isPrefixOf_iff_prefix] at h hq
  rcases List.prefix_or_prefix_of_prefix hq h with hc | hc
  · rw [← List.isPrefixOf_iff_prefix] at hc
    rw [hc] at h1
    exact Bool.noConfusion h1
  · rw [← List.isPrefixOf_iff_prefix] at hc
    rw [hc] at h2
    exact Bool.noConfusion h2

/-! The claims. -/

/-- C1: for every inbound message whose sender has a live (non-expired)
session, `process_incoming_message` routes to the session-continuation
handler `handle_session_message` and never to command parsing — the message
content is arbitrary, so in particular a text beginning with the slash
prefix is consumed as session input. -/
theorem session_preempts_command_parsing
    (env : Env) (menv : MediaEnv) (sessions : Sessions) (now : Nat)
    (msg : Msg) (sender : String) (s : SessionRec)
    (hfrom : normalize_number msg.msgFrom = some sender)
    (hne : sender.isEmpty = false)
    (hsess : (get_session sessions now sender).1 = some s) :
    process_incoming_message env menv sessions now msg
      = handle_session_message menv (get_session sessions now sender).2 sender s msg := by
  unfold process_incoming_message
  rw [hfrom]
  simp [hne, hsess]

/-- Witness for C1: `/help` sent while a voice-model choice is awaited is
answered as an invalid choice, not as the help command. -/
theorem session_preempts_command_parsing_witness :
    process_incoming_message testEnv testMediaFailUrl
        [("+7", ⟨"announce_model", [("announce_text", "hi")], 0⟩)] 10 (textMsg "7" "/help")
      = ([Effect.reply "Invalid choice. Send 1,2,3 or 4."],
         [("+7", ⟨"announce_model", [("announce_text", "hi")], 0⟩)]) := by
  have h := session_preempts_command_parsing testEnv testMediaFailUrl
    [("+7", ⟨"announce_model", [("announce_text", "hi")], 0⟩)] 10 (textMsg "7" "/help")
    "+7" ⟨"announce_model", [("announce_text", "hi")], 0⟩ (by decide) (by decide) (by decide)
  exact h.trans (by decide)

/-- C2 counterexample: at exactly 300 seconds elapsed the stored session is
still returned (the source evicts only when `now - ts > 300`), whereas the
claim says it is absent at 300. -/
theorem session_present_at_exactly_300s :
    (get_session (set_session [] "+5" "announce_model" [("announce_text", "hi")] 0) 300 "+5").1
      = some ⟨"announce_model", [("announce_text", "hi")], 0⟩ := by decide

/-- C2 (amended): a session created at `t` is returned by a read at `now`
whenever `now - t ≤ 300` — in particular at exactly 300 seconds elapsed —
and is absent, with the stored entry evicted, whenever `now - t > 300`. -/
theorem get_session_ttl_boundary (sessions : Sessions) (sender state : String)
    (data : List (String × String)) (t now : Nat) :
    (now - t ≤ 300 →
      (get_session (set_session sessions sender state data t) now sender).1
        = some ⟨state, data, t⟩)
    ∧ (300 < now - t →
      (get_session (set_session sessions sender state data t) now sender).1 = none
      ∧ dictGet (get_session (set_session sessions sender state data t) now sender).2 sender
          = none) := by
  have hget : dictGet (set_session sessions sender state data t) sender
      = some ⟨state, data, t⟩ := dictGet_dictSet_self sessions sender ⟨state, data, t⟩
  constructor
  · intro h
    unfold get_session
    rw [hget]
    simp only
    rw [if_neg (by omega)]
  · intro h
    unfold get_session
    rw [hget]
    simp only
    rw [if_pos (by omega)]
    exact ⟨rfl, dictGet_dictDel_self (set_session sessions sender state data t) sender⟩

/-- Witness for C2: concrete reads at 300 and 301 seconds elapsed. -/
theorem get_session_ttl_boundary_witness :
    (get_session (set_session [] "+1" "announce_model" [] 0) 300 "+1").1
      = some ⟨"announce_model", [], 0⟩
    ∧ (get_session (set_session [] "+1" "announce_model" [] 0) 301 "+1").1 = none := by
  exact ⟨(get_session_ttl_boundary [] "+1" "announce_model" [] 0 300).1 (by decide),
         ((get_session_ttl_boundary [] "+1" "announce_model" [] 0 301).2 (by decide)).1⟩

/-- C3 counterexample: a teacher issuing the schedule-CRUD command
`/schedule list` is answered with the generic unknown-command reply, not
with "Not allowed." — the denial is disguised as another reply. -/
theorem schedule_denial_disguised :
    handle_slash_command testEnv [] 0 "+5" "/schedule list"
      = ([Effect.reply "Unknown command. Type /help"], [])
    ∧ Effect.reply "Not allowed."
        ∉ (handle_slash_command testEnv [] 0 "+5" "/schedule list").1 := by decide

/-- C3 (amended): a bell-control or assembly command from a role outside
teacher/developer, an announcement command from a role outside
admin/developer, and a settings command from a non-developer each produce
exactly the user-visible "Not allowed." reply, with no action invoked and
the session store unchanged; a schedule-CRUD command from a non-developer
instead falls through to the generic "Unknown command. Type /help" reply
(denial disguised), likewise with no action and no session change. -/
theorem gating_replies (env : Env) (sessions : Sessions) (now : Nat) (sender body : String) :
    (pyStartsWith (pyStrip body) "/bellmode" = true →
      get_role env sender ≠ "teacher" → get_role env sender ≠ "developer" →
      handle_slash_command env sessions now sender body
        = ([Effect.reply "Not allowed."], sessions))
    ∧ (pyStartsWith (pyStrip body) "/assembly" = true →
      get_role env sender ≠ "teacher" → get_role env sender ≠ "developer" →
      handle_slash_command env sessions now sender body
        = ([Effect.reply "Not allowed."], sessions))
    ∧ ((pyStartsWith (pyStrip body) "/announcement" = true
        ∨ pyStartsWith (pyStrip body) "/announce" = true) →
      get_role env sender ≠ "admin" → get_role env sender ≠ "developer" →
      handle_slash_command env sessions now sender body
        = ([Effect.reply "Not allowed."], sessions))
    ∧ (pyStartsWith (pyStrip body) "/settings" = true →
      get_role env sender ≠ "developer" →
      handle_slash_command env sessions now sender body
        = ([Effect.reply "Not allowed."], sessions))
    ∧ (pyStartsWith (pyStrip body) "/schedule" = true →
      get_role env sender ≠ "developer" →
      handle_slash_command env sessions now sender body
        = ([Effect.reply "Unknown command. Type /help"], sessions)) := by
  refine ⟨?_, ?_, ?_, ?_, ?_⟩
  · intro hb h1 h2
    have hh : (pyStrip body == "/help") = false :=
      beq_eq_false_iff_ne.mpr (ne_of_pyStartsWith hb (by decide))
    have hab : pyStartsWith (pyStrip body) "/about" = false :=
      pyStartsWith_excl hb (by decide) (by decide)
    have hr1 : (get_role env sender == "teacher") = false := beq_eq_false_iff_ne.mpr h1
    have hr2 : (get_role env sender == "developer") = false := beq_eq_false_iff_ne.mpr h2
    simp [handle_slash_command, hh, hab, hb, hr1, hr2]
  · intro hb h1 h2
    have hh : (pyStrip body == "/help") = false :=
      beq_eq_false_iff_ne.mpr (ne_of_pyStartsWith hb (by decide))
    have hab : pyStartsWith (pyStrip body) "/about" = false :=
      pyStartsWith_excl hb (by decide) (by decide)
    have hbm : pyStartsWith (pyStrip body) "/bellmode" = false :=
      pyStartsWith_excl hb (by decide) (by decide)
    have hr1 : (get_role env sender == "teacher") = false := beq_eq_false_iff_ne.mpr h1
    have hr2 : (get_role env sender == "developer") = false := beq_eq_false_iff_ne.mpr h2
    simp [handle_slash_command, hh, hab, hbm, hb, hr1, hr2]
  · intro hb h1 h2
    have hA : pyStartsWith (pyStrip body) "/announce" = true := by
      rcases hb with hb | hb
      · unfold pyStartsWith at hb ⊢
        rw [List.isPrefixOf_iff_prefix] at hb ⊢
        exact List.IsPrefix.trans (by decide) hb
      · exact hb
    have hh : (pyStrip body == "/help") = false :=
      beq_eq_false_iff_ne.mpr (ne_of_pyStartsWith hA (by decide))
    have hab : pyStartsWith (pyStrip body) "/about" = false :=
      pyStartsWith_excl hA (by decide) (by decide)
    have hbm : pyStartsWith (pyStrip body) "/bellmode" = false :=
      pyStartsWith_excl hA (by decide) (by decide)
    have has : pyStartsWith (pyStrip body) "/assembly" = false :=
      pyStartsWith_excl hA (by decide) (by decide)
    have hr1 : (get_role env sender == "admin") = false := beq_eq_false_iff_ne.mpr h1
    have hr2 : (get_role env sender == "developer") = false := beq_eq_false_iff_ne.mpr h2
    simp [handle_slash_command, hh, hab, hbm, has, hA, hr1, hr2]
  · intro hb h1
    have hh : (pyStrip body == "/help") = false :=
      beq_eq_false_iff_ne.mpr (ne_of_pyStartsWith hb (by decide))
    have hab : pyStartsWith (pyStrip body) "/about" = false :=
      pyStartsWith_excl hb (by decide) (by decide)
    have hbm : pyStartsWith (pyStrip body) "/bellmode" = false :=
      pyStartsWith_excl hb (by decide) (by decide)
    have has : pyStartsWith (pyStrip body) "/assembly" = false :=
      pyStartsWith_excl hb (by decide) (by decide)
    have han1 : pyStartsWith (pyStrip body) "/announcement" = false :=
      pyStartsWith_excl hb (by decide) (by decide)
    have han2 : pyStartsWith (pyStrip body) "/announce" = false :=
      pyStartsWith_excl hb (by decide) (by decide)
    simp [handle_slash_command, hh, hab, hbm, has, han1, han2, hb, h1]
  · intro hb h1
    have hh : (pyStrip body == "/help") = false :=
      beq_eq_false_iff_ne.mpr (ne_of_pyStartsWith hb (by decide))
    have hab : pyStartsWith (pyStrip body) "/about" = false :=
      pyStartsWith_excl hb (by decide) (by decide)
    have hbm : pyStartsWith (pyStrip body) "/bellmode" = false :=
      pyStartsWith_excl hb (by decide) (by decide)
    have has : pyStartsWith (pyStrip body) "/assembly" = false :=
      pyStartsWith_excl hb (by decide) (by decide)
    have han1 : pyStartsWith (pyStrip body) "/announcement" = false :=
      pyStartsWith_excl hb (by decide) (by decide)
    have han2 : pyStartsWith (pyStrip body) "/announce" = false :=
      pyStartsWith_excl hb (by decide) (by decide)
    have hst : pyStartsWith (pyStrip body) "/settings" = false :=
      pyStartsWith_excl hb (by decide) (by decide)
    have hr : (get_role env sender == "developer") = false := beq_eq_false_iff_ne.mpr h1
    simp [handle_slash_command, hh, hab, hbm, has, han1, han2, hst, hb, hr]

/-- Witness for C3: concrete denials — an admin blocked from bell control, a
teacher blocked from announcements and settings, and a teacher whose
schedule-CRUD attempt gets the generic unknown-command reply. -/
theorem gating_replies_witness :
    handle_slash_command testEnv [] 0 "+7" "/bellmode today"
      = ([Effect.reply "Not allowed."], [])
    ∧ handle_slash_command testEnv [] 0 "+5" "/announce text hi"
      = ([Effect.reply "Not allowed."], [])
    ∧ handle_slash_command testEnv [] 0 "+5" "/settings"
      = ([Effect.reply "Not allowed."], [])
    ∧ handle_slash_command testEnv [] 0 "+5" "/schedule delete Regular Day"
      = ([Effect.reply "Unknown command. Type /help"], []) := by
  refine ⟨(gating_replies testEnv [] 0 "+7" "/bellmode today").1
            (by decide) (by decide) (by decide),
          (gating_replies testEnv [] 0 "+5" "/announce text hi").2.2.1
            (Or.inr (by decide)) (by decide) (by decide),
          (gating_replies testEnv [] 0 "+5" "/settings").2.2.2.1
            (by decide) (by decide),
          (gating_replies testEnv [] 0 "+5" "/schedule delete Regular Day").2.2.2.2
            (by decide) (by decide)⟩

/-- C4: the code evaluated at the failing input — `/bellmode today` from a
teacher opens the `bell_today_input` session and asks for comma-separated
HH:MM times, but the continuation handler has no branch for that state, so
the very next text reply carrying the times is answered with "Session
expired or unknown." and the session is cleared: the times are never
consumed, let alone validated. -/
theorem bell_today_times_dropped :
    handle_slash_command testEnv [] 0 "+5" "/bellmode today"
      = ([Effect.reply "Send times for TODAY as comma separated HH:MM values. Example: 09:00,10:30,12:00"],
         [("+5", ⟨"bell_today_input", [], 0⟩)])
    ∧ process_incoming_message testEnv testMediaFailUrl
        [("+5", ⟨"bell_today_input", [], 0⟩)] 10 (textMsg "5" "09:00,10:30")
      = ([Effect.reply "Session expired or unknown."], []) := by decide

/-- C5: the code evaluated at the failing input — `handle_slash_command` of
`whatsapp_integration.py` binds `lower = body.strip()` without lowercasing,
so `/Help` from a teacher is answered as an unknown command while `/help`
reaches the help handler; the sibling `handle_command` of
`whatsapp_server.py` does lowercase and treats `/HELP` and `/help` alike,
and its announcement body is sliced from the original text with casing
preserved. -/
theorem slash_matching_case_sensitive :
    handle_slash_command testEnv [] 0 "+5" "/Help"
      = ([Effect.reply "Unknown command. Type /help"], [])
    ∧ handle_slash_command testEnv [] 0 "+5" "/help"
      = ([Effect.reply "JOTHI Commands (Teacher):\n/bellmode - Bell options\n/assembly - Assembly playback\n/about - About us"], [])
    ∧ handle_command "/HELP" "+5" = handle_command "/help" "+5"
    ∧ announce_body "/announce Good Morning" = "Good Morning" := by decide

/-- C6 counterexample: the confirmation reply after choosing model 2 is
"Announcement played using model 2" with no trailing period — the code
builds it as a plain concatenation — so the claimed exact reply
"Announcement played using model 2." never occurs in the effect list. -/
theorem announce_reply_lacks_period :
    Effect.reply "Announcement played using model 2."
      ∉ (handle_session_message testMediaFailUrl
          [("+7", ⟨"announce_model", [("announce_text", "Good morning")], 0⟩)] "+7"
          ⟨"announce_model", [("announce_text", "Good morning")], 0⟩ (textMsg "7" "2")).1 := by
  decide

/-- C6 (amended): `/announce text Good morning` from the admin replies with
the four numbered voice choices and opens an `announce_model` session
storing the body "Good morning"; the follow-up `2` routed through the
dispatcher invokes the online TTS action with that stored text and voice
"nova", clears the session, and replies "Announcement played using model 2"
(no trailing period). -/
theorem announce_text_then_model_choice :
    handle_slash_command testEnv [] 0 "+7" "/announce text Good morning"
      = ([Effect.reply "Choose voice model for announcement:\n1. Alloy (online)\n2. Nova (online)\n3. Onyx (online)\n4. Offline local\nSend 1/2/3/4 now."],
         [("+7", ⟨"announce_model", [("announce_text", "Good morning")], 0⟩)])
    ∧ process_incoming_message testEnv testMediaFailUrl
        [("+7", ⟨"announce_model", [("announce_text", "Good morning")], 0⟩)] 10
        (textMsg "7" "2")
      = ([Effect.action (ActionKind.ttsOnline "Good morning" "nova" "announce_nova.mp3"),
          Effect.reply "Announcement played using model 2"], []) := by decide

/-- C7 counterexample: with the verification token matching the configured
secret but `hub.mode` absent, the endpoint still responds 403 Forbidden,
whereas the claim makes token equality alone sufficient for success. -/
theorem verify_rejects_token_match_without_subscribe :
    verify "JOTHI_VERIFY" ⟨none, some "JOTHI_VERIFY", some "12345"⟩
      = (some "Forbidden", 403) := by decide

/-- C7 (amended): both GET webhook handlers echo the raw challenge with
status 200 exactly when `hub.mode` equals "subscribe" AND the provided
token string-equals the configured secret, and otherwise reply "Forbidden"
with status 403. -/
theorem verify_challenge_iff (vt : String) (q : QueryArgs) :
    (q.mode = some "subscribe" ∧ q.token = some vt →
      verify vt q = (q.challenge, 200) ∧ verify_webhook vt q = (q.challenge, 200))
    ∧ (¬(q.mode = some "subscribe" ∧ q.token = some vt) →
      verify vt q = (some "Forbidden", 403) ∧ verify_webhook vt q = (some "Forbidden", 403)) := by
  constructor
  · intro h
    constructor
    · unfold verify
      rw [if_pos h]
    · unfold verify_webhook
      rw [if_pos h]
  · intro h
    constructor
    · unfold verify
      rw [if_neg h]
    · unfold verify_webhook
      rw [if_neg h]

/-- Witness for C7: a matching handshake echoes the challenge, a wrong token
is rejected. -/
theorem verify_challenge_iff_witness :
    verify "JOTHI_VERIFY" ⟨some "subscribe", some "JOTHI_VERIFY", some "777"⟩
      = (some "777", 200)
    ∧ verify "JOTHI_VERIFY" ⟨some "subscribe", some "WRONG", some "777"⟩
      = (some "Forbidden", 403) := by
  exact ⟨((verify_challenge_iff "JOTHI_VERIFY"
            ⟨some "subscribe", some "JOTHI_VERIFY", some "777"⟩).1 (by decide)).1,
         ((verify_challenge_iff "JOTHI_VERIFY"
            ⟨some "subscribe", some "WRONG", some "777"⟩).2 (by decide)).1⟩

/-- C8: while a voice-model choice is awaited, any malformed continuation
input — non-text content, or text outside the four literal choices — gets
the matching re-prompt and leaves the session store untouched; because the
store and the reply are unchanged, resending the same malformed input gives
the identical result. -/
theorem malformed_choice_reprompts (menv : MediaEnv) (sessions : Sessions)
    (sender : String) (sess : SessionRec) (msg : Msg)
    (he : sess.expect = "announce_model")
    (hm : msg.type ≠ some "text"
        ∨ ¬(pyStrip ((msg.textBody).getD "") = "1" ∨ pyStrip ((msg.textBody).getD "") = "2"
            ∨ pyStrip ((msg.textBody).getD "") = "3" ∨ pyStrip ((msg.textBody).getD "") = "4")) :
    handle_session_message menv sessions sender sess msg
      = ([Effect.reply (if msg.type ≠ some "text"
            then "Please send model number 1/2/3/4 as text."
            else "Invalid choice. Send 1,2,3 or 4.")], sessions)
    ∧ handle_session_message menv
        ((handle_session_message menv sessions sender sess msg).2) sender sess msg
      = handle_session_message menv sessions sender sess msg := by
  have h1 : handle_session_message menv sessions sender sess msg
      = ([Effect.reply (if msg.type ≠ some "text"
            then "Please send model number 1/2/3/4 as text."
            else "Invalid choice. Send 1,2,3 or 4.")], sessions) := by
    by_cases ht : msg.type = some "text"
    · rcases hm with hm | hm
      · exact absurd ht hm
      · have c1 : (pyStrip ((msg.textBody).getD "") == "1") = false :=
          beq_eq_false_iff_ne.mpr (fun h => hm (Or.inl h))
        have c2 : (pyStrip ((msg.textBody).getD "") == "2") = false :=
          beq_eq_false_iff_ne.mpr (fun h => hm (Or.inr (Or.inl h)))
        have c3 : (pyStrip ((msg.textBody).getD "") == "3") = false :=
          beq_eq_false_iff_ne.mpr (fun h => hm (Or.inr (Or.inr (Or.inl h))))
        have c4 : (pyStrip ((msg.textBody).getD "") == "4") = false :=
          beq_eq_false_iff_ne.mpr (fun h => hm (Or.inr (Or.inr (Or.inr h))))
        simp [handle_session_message, he, ht, c1, c2, c3, c4]
    · simp [handle_session_message, he, ht]
  refine ⟨h1, ?_⟩
  rw [h1]
  exact h1

/-- Witness for C8: `/help` as the choice re-prompts and keeps the session. -/
theorem malformed_choice_reprompts_witness :
    handle_session_message testMediaFailUrl
        [("+8", ⟨"announce_model", [("announce_text", "hi")], 0⟩)] "+8"
        ⟨"announce_model", [("announce_text", "hi")], 0⟩ (textMsg "8" "/help")
      = ([Effect.reply "Invalid choice. Send 1,2,3 or 4."],
         [("+8", ⟨"announce_model", [("announce_text", "hi")], 0⟩)]) := by
  have h := (malformed_choice_reprompts testMediaFailUrl
    [("+8", ⟨"announce_model", [("announce_text", "hi")], 0⟩)] "+8"
    ⟨"announce_model", [("announce_text", "hi")], 0⟩ (textMsg "8" "/help")
    rfl (Or.inr (by decide))).1
  exact h.trans (by decide)

/-- C9: in a session awaiting a voice note, a failed media-URL resolution
replies "Failed to get media URL." and a failed download replies "Failed to
download voice."; in both cases the session is cleared immediately, no
playback action appears in the effect list and there is no retry, and the
sender's entry is gone from the cleared store. -/
theorem voice_media_failure_clears_session (menv : MediaEnv) (sessions : Sessions)
    (sender : String) (sess : SessionRec) (msg : Msg)
    (he : sess.expect = "announce_wait_voice")
    (ht : msg.type = some "audio") :
    (pyFalsy (menv.mediaUrlOf msg.audioId).1 = true →
      handle_session_message menv sessions sender sess msg
        = ([Effect.reply "Failed to get media URL."], clear_session sessions sender))
    ∧ (pyFalsy (menv.mediaUrlOf msg.audioId).1 = false →
      pyFalsy (menv.downloadOf (((menv.mediaUrlOf msg.audioId).1).getD "") msg.audioId
                (menv.mediaUrlOf msg.audioId).2) = true →
      handle_session_message menv sessions sender sess msg
        = ([Effect.reply "Failed to download voice."], clear_session sessions sender))
    ∧ dictGet (clear_session sessions sender) sender = none := by
  have hne : (("announce_wait_voice" : String) == "announce_model") = false := by decide
  refine ⟨?_, ?_, dictGet_dictDel_self sessions sender⟩
  · intro h1
    simp [handle_session_message, he, hne, ht, h1]
  · intro h1 h2
    simp [handle_session_message, he, hne, ht, h1, h2]

/-- Witness for C9: both failure kinds at a concrete session and message. -/
theorem voice_media_failure_clears_session_witness :
    handle_session_message testMediaFailUrl [("+7", ⟨"announce_wait_voice", [], 0⟩)]
        "+7" ⟨"announce_wait_voice", [], 0⟩ (audioMsg "7" "m1")
      = ([Effect.reply "Failed to get media URL."], [])
    ∧ handle_session_message testMediaFailDownload [("+7", ⟨"announce_wait_voice", [], 0⟩)]
        "+7" ⟨"announce_wait_voice", [], 0⟩ (audioMsg "7" "m1")
      = ([Effect.reply "Failed to download voice."], []) := by
  constructor
  · have h := ((voice_media_failure_clears_session testMediaFailUrl
      [("+7", ⟨"announce_wait_voice", [], 0⟩)] "+7" ⟨"announce_wait_voice", [], 0⟩
      (audioMsg "7" "m1") rfl rfl).1) (by decide)
    exact h.trans (by decide)
  · have h := ((voice_media_failure_clears_session testMediaFailDownload
      [("+7", ⟨"announce_wait_voice", [], 0⟩)] "+7" ⟨"announce_wait_voice", [], 0⟩
      (audioMsg "7" "m1") rfl rfl).2.1 (by decide) (by decide))
    exact h.trans (by decide)

/-- C10: for a teacher or developer issuing `/bellmode use NAME`, a schedule
store that maps NAME to the empty list and one that has no entry for NAME
are indistinguishable: both take the falsy branch of
`BELL_SCHEDULES.get(name, [])`, reply with the schedule-not-found message,
invoke no ring action and leave the session store unchanged. -/
theorem bellmode_use_empty_schedule (env : Env) (sessions : Sessions) (now : Nat)
    (sender body raw : String)
    (hrole : get_role env sender = "teacher" ∨ get_role env sender = "developer")
    (hstart : pyStartsWith (pyStrip body) "/bellmode" = true)
    (hparts : pySplit (pyStrip body) (some 2) = ["/bellmode", "use", raw])
    (hsched : dictGet env.schedules (pyStrip raw) = some []
        ∨ dictGet env.schedules (pyStrip raw) = none) :
    handle_slash_command env sessions now sender body
      = ([Effect.reply ("Schedule '" ++ pyStrip raw ++ "' not found.")], sessions) := by
  have hh : (pyStrip body == "/help") = false :=
    beq_eq_false_iff_ne.mpr (ne_of_pyStartsWith hstart (by decide))
  have hab : pyStartsWith (pyStrip body) "/about" = false :=
    pyStartsWith_excl hstart (by decide) (by decide)
  have hsc : get_schedule env (pyStrip raw) = [] := by
    rcases hsched with h | h <;> simp [get_schedule, h]
  rcases hrole with hr | hr
  · simp [handle_slash_command, hh, hab, hstart, hparts, hr, hsc]
  · simp [handle_slash_command, hh, hab, hstart, hparts, hr, hsc]

/-- Witness for C10: the store maps "Ghost Day" to the empty list, and the
reply is the not-found message with no action. -/
theorem bellmode_use_empty_schedule_witness :
    handle_slash_command testEnv [] 0 "+5" "/bellmode use Ghost Day"
      = ([Effect.reply "Schedule 'Ghost Day' not found."], []) := by
  have h := bellmode_use_empty_schedule testEnv [] 0 "+5" "/bellmode use Ghost Day"
    "Ghost Day" (Or.inl (by decide)) (by decide) (by decide) (Or.inl (by decide))
  exact h.trans (by decide)

end JOTHI
